import Mathlib

/-!
Shallow embedding of the tabiew application controller (`src/main.rs`) and the
parts of its collaborators that the verified properties need.

The embedded surface is the orchestration entry point `main` (src/main.rs:56-106)
and the event loop `main_loop` (src/main.rs:108-159).  Modules of the repository
that `main.rs` calls but whose sources are not available (`tabiew::app`,
`tabiew::tui`, `tabiew::event`, `tabiew::handler`, `tabiew::command`) are
modelled from the specification where their behavior matters, and kept opaque
(ids, abstract payloads, function parameters) where it does not.  External
crates (polars, polars_sql, ratatui, crossterm) are modelled by their interface
contracts only.

Panics (`unwrap()` on `None`, `unimplemented!()`) abort the process; they are
modelled as `Except.error` carrying the panic message, since for the verified
properties only "the run ends here, with this message, without reaching the
loop" is observable.
-/

namespace Spec2Proof

/-- Run-time errors / abort messages (`AppResult` error side, panic messages). -/
abbrev Error := String

/-- Opaque handle to a loaded tabular dataset (a polars `DataFrame` is external;
only its identity matters to the controller). -/
structure DataFrame where
  id : Nat
deriving DecidableEq, Repr

/-- Modelled from the spec: the View State `Tabular` (`tabiew::app`, not under
src/): displayed dataset handle, cursor, viewport offset and tick counter
(spec section 3 and section 4.2). -/
structure Tabular where
  dataset : DataFrame
  cursorRow : Nat
  cursorCol : Nat
  offsetRow : Nat
  offsetCol : Nat
  tickCount : Nat
deriving DecidableEq, Repr

/-- Modelled from the spec: `Tabular::new` initializes the view over the loaded
dataset, with cursor, offset and tick counter at their initial values. -/
def Tabular.new (df : DataFrame) : Tabular :=
  { dataset := df, cursorRow := 0, cursorCol := 0, offsetRow := 0, offsetCol := 0,
    tickCount := 0 }

/-- Modelled from the spec: `Tabular::tick` advances the view tick, incrementing
the tick counter; no side effect on the dataset (spec section 4.2). -/
def Tabular.tick (t : Tabular) : Tabular :=
  { t with tickCount := t.tickCount + 1 }

/-- A transient status message: text, severity, decay counter (spec section 3). -/
structure StatusMessage where
  text : String
  isError : Bool
  remainingTicks : Nat
deriving DecidableEq, Repr

/-- Modelled from the spec: the Status Surface `StatusBar` (`tabiew::app`, not
under src/): at most one live transient message (spec section 3, section 4.3). -/
structure StatusBar where
  message : Option StatusMessage
deriving DecidableEq, Repr

/-- `StatusBar::default()`: no message. -/
def StatusBar.default : StatusBar := { message := Option.none }

/-- Modelled from the spec: `StatusBar::tick` decrements the remaining ticks of
the current message and clears it when it reaches zero (spec section 4.3). -/
def StatusBar.tick (s : StatusBar) : StatusBar :=
  match s.message with
  | Option.none => s
  | Option.some m =>
    if m.remainingTicks ≤ 1 then { message := Option.none }
    else { message := Option.some { m with remainingTicks := m.remainingTicks - 1 } }

/-- The relation registry of the query bridge (`polars_sql::SQLContext` is an
external collaborator; spec section 4.5 gives its contract): a mapping from
relation name to dataset handle. -/
structure SQLContext where
  registry : List (String × DataFrame)
deriving DecidableEq, Repr

/-- `SQLContext::new()`: empty registry. -/
def SQLContext.new : SQLContext := { registry := [] }

/-- `SQLContext::register(name, df)`: overwrites any prior registration under
that name (spec section 4.5: idempotent, overwriting). -/
def SQLContext.register (ctx : SQLContext) (name : String) (df : DataFrame) :
    SQLContext :=
  { registry := (name, df) :: ctx.registry.filter (fun p => p.1 != name) }

/-- Name lookup in the relation registry. -/
def SQLContext.lookup (ctx : SQLContext) (name : String) : Option DataFrame :=
  (ctx.registry.find? (fun p => p.1 == name)).map Prod.snd

/-- The command execution table (`tabiew::command::ExecutionTable`, not under
src/).  `main` builds it once from `CommandList::default().into_exec()`
(src/main.rs:76) and `main_loop` only ever hands out shared references to it;
its contents are opaque here, an id distinguishes distinct tables. -/
structure ExecutionTable where
  id : Nat
deriving DecidableEq, Repr

/-- The table produced by `CommandList::default().into_exec()` at startup. -/
def CommandList.defaultIntoExec : ExecutionTable := { id := 0 }

/-- Key event kinds as reported by the terminal driver (crossterm
`KeyEventKind`). -/
inductive KeyEventKind
  | Press
  | Repeat
  | Release
deriving DecidableEq, Repr

/-- A key event: an opaque code plus the kind tag. -/
structure KeyEvent where
  code : Nat
  kind : KeyEventKind
deriving DecidableEq, Repr

/-- The event variants produced by `tabiew::event::EventHandler`
(src/main.rs:122-156): `Tick | Key | Mouse | Resize`. -/
inductive Event
  | Tick
  | Key (keyEvent : KeyEvent)
  | Mouse (payload : Nat)
  | Resize (w : Nat) (h : Nat)
deriving DecidableEq, Repr

/-- Whether an event is a `Key` event. -/
def Event.isKey : Event → Bool
  | Event.Key _ => true
  | _ => false

/-- The compile target of the `#[cfg(target_os = "windows")]` /
`#[cfg(not(target_os = "windows"))]` branches in `main_loop`
(src/main.rs:128 and 142). -/
inductive TargetOs
  | windows
  | other
deriving DecidableEq, Repr

/-- The mutable state threaded through `main_loop` (src/main.rs:108-116):
`tabular`, `status_bar`, `sql_context`, the immutably borrowed `exec_tbl`,
and the `running` flag. -/
structure AppState where
  tabular : Tabular
  statusBar : StatusBar
  sqlContext : SQLContext
  execTbl : ExecutionTable
  running : Bool
deriving DecidableEq, Repr

/-- The type of `tabiew::handler::handle_key_events` (not under src/): it
receives the key event, mutable access to the view state, status bar, sql
context and running flag, a shared (read-only) reference to the execution
table, and may fail (src/main.rs:132-139 and 144-151).  Because the table is
borrowed immutably, a handler cannot return a new table. -/
abbrev KeyHandler := KeyEvent → Tabular → StatusBar → SQLContext → Bool →
  ExecutionTable → Except Error (Tabular × StatusBar × SQLContext × Bool)

/-- One dispatch of the `match tui.events.next()?` arms of `main_loop`
(src/main.rs:122-156), parameterized by the key handler and the compile
target:
* `Tick` runs `tabular.tick(); status_bar.tick()` (lines 123-126);
* `Key` on windows is filtered to `Press | Repeat` kinds before calling
  `handle_key_events` (lines 128-141), on other targets `handle_key_events`
  is called unconditionally (lines 142-152);
* `Mouse` and `Resize` have empty arms (lines 154-155). -/
def dispatch (handler : KeyHandler) (os : TargetOs) (s : AppState) :
    Event → Except Error AppState
  | Event.Tick =>
    Except.ok { s with tabular := s.tabular.tick, statusBar := s.statusBar.tick }
  | Event.Key k =>
    match os with
    | TargetOs.windows =>
      if k.kind = KeyEventKind.Press ∨ k.kind = KeyEventKind.Repeat then
        (handler k s.tabular s.statusBar s.sqlContext s.running s.execTbl).map
          (fun r => { s with tabular := r.1, statusBar := r.2.1,
                             sqlContext := r.2.2.1, running := r.2.2.2 })
      else Except.ok s
    | TargetOs.other =>
      (handler k s.tabular s.statusBar s.sqlContext s.running s.execTbl).map
        (fun r => { s with tabular := r.1, statusBar := r.2.1,
                           sqlContext := r.2.2.1, running := r.2.2.2 })
  | Event.Mouse _ => Except.ok s
  | Event.Resize _ _ => Except.ok s

/-- Whether `main_loop` invokes `handle_key_events` for a key event of the
given kind: on windows the kind is filtered to `Press | Repeat`
(src/main.rs:131), on every other target there is no kind filter and the
handler is always invoked (src/main.rs:142-152). -/
def invokesKeyHandler (os : TargetOs) (kind : KeyEventKind) : Bool :=
  match os with
  | TargetOs.windows => kind == KeyEventKind.Press || kind == KeyEventKind.Repeat
  | TargetOs.other => true

/-- The externally determined outcome of one iteration of `main_loop`
(src/main.rs:118-156): either `tui.draw(..)?` fails, or it succeeds and
`tui.events.next()?` fails, or it succeeds and an event is delivered. -/
inductive IterInput
  | drawFail (e : Error)
  | eventFail (e : Error)
  | event (ev : Event)
deriving DecidableEq, Repr

/-- How a run of `main_loop` on a finite trace of iteration inputs ends:
normal exit with `running == false`, an error propagated by one of the `?`
operators, or the trace exhausted while still running (the loop would block
for the next draw/event). -/
inductive LoopOutcome
  | finished (s : AppState)
  | failed (e : Error)
  | pending (s : AppState)
deriving DecidableEq, Repr

/-- The `while running` loop of `main_loop` (src/main.rs:115-158): each
iteration first draws (a failed draw propagates immediately), then fetches the
next event (a failed fetch propagates), then dispatches it; a dispatch error
propagates; otherwise the loop repeats with the updated state. -/
def mainLoop (handler : KeyHandler) (os : TargetOs) :
    AppState → List IterInput → LoopOutcome
  | s, inputs =>
    if s.running then
      match inputs with
      | [] => LoopOutcome.pending s
      | IterInput.drawFail e :: _ => LoopOutcome.failed e
      | IterInput.eventFail e :: _ => LoopOutcome.failed e
      | IterInput.event ev :: rest =>
        match dispatch handler os s ev with
        | Except.error e => LoopOutcome.failed e
        | Except.ok s2 => mainLoop handler os s2 rest
    else LoopOutcome.finished s

/-- The extension match of `main` (src/main.rs:60-65) applied to
`args.file_name.extension()` (flattened with `to_str`, i.e. `Option String`):
`None` makes `.unwrap()` panic; `parquet`, `csv` and `json` select a loader;
any other extension hits the `unimplemented!()` arm and panics.  Panics are
modelled as `Except.error` with the panic message. -/
def selectLoader : Option String → Except Error Unit
  | Option.none => Except.error "called Option::unwrap() on a None value"
  | Option.some s =>
    if s = "parquet" then Except.ok ()
    else if s = "csv" then Except.ok ()
    else if s = "json" then Except.ok ()
    else Except.error "not implemented"

/-- The two standard output streams relevant to the backend choice. -/
inductive StdStream
  | stdout
  | stderr
deriving DecidableEq, Repr

/-- The rendering backend, tagged with the stream it writes to (ratatui
`CrosstermBackend` is external; only the stream choice is observable here). -/
structure CrosstermBackend where
  stream : StdStream
deriving DecidableEq, Repr

/-- The backend `main` constructs: `CrosstermBackend::new(io::stderr())`
(src/main.rs:79). -/
def mainBackend : CrosstermBackend := { stream := StdStream.stderr }

/-- The environment of one run of `main` (src/main.rs:56-106): the (flattened)
file extension, the dataset the external loader returns when it is reached,
failure injection for the fallible `Terminal::new(backend)?` (line 80),
`tui.init()?` (line 83) and `tui.exit()?` (line 104) calls, and the trace
driving the loop iterations. -/
structure MainInput where
  ext : Option String
  loaded : DataFrame
  terminalNewFail : Option Error
  initFail : Option Error
  exitFail : Option Error
  trace : List IterInput
deriving Repr

/-- How a run of `main` ends: `Ok(())`, `Err(e)` propagated by a `?`, a panic
before the terminal is initialized (extension dispatch / loader), or blocked
inside the loop (finite trace exhausted). -/
inductive MainOutcome
  | ok
  | err (e : Error)
  | blocked
deriving DecidableEq, Repr

/-- The observables of one run of `main`: whether `tui.init()` ran (line 83),
whether the loop was entered (lines 86-101), the state handed to `main_loop`
at loop entry, whether `tui.exit()` ran (line 104), the stream the backend
writes to, and how the run ended. -/
structure MainResult where
  initCalled : Bool
  loopEntered : Bool
  stateAtLoop : Option AppState
  exitCalled : Bool
  backendStream : StdStream
  outcome : MainOutcome
deriving DecidableEq, Repr

/-- The state `main` hands to `main_loop` when the loop is entered: the view
state built over the loaded dataset (src/main.rs:72), the default status bar
(line 73), the fresh `SQLContext` with the dataset registered as `df`
(lines 68-69), the execution table built once at startup (line 76), and
`running` starting `true` (line 115). -/
def loopEntryState (df : DataFrame) : AppState :=
  { tabular := Tabular.new df, statusBar := StatusBar.default,
    sqlContext := SQLContext.new.register "df" df,
    execTbl := CommandList.defaultIntoExec, running := true }

/-- `main` (src/main.rs:56-106): extension dispatch and load; registering the
dataset as `df` in a fresh `SQLContext` (lines 68-69); building the view state
over the same dataset (line 72), the default status bar (line 73) and the
execution table (line 76); constructing the stderr backend, terminal, events
and tui (lines 79-82); `tui.init()?` (line 83); running `main_loop` under the
selected theme, where both theme arms call the same loop and propagate a loop
error with `?` (lines 86-101); then `tui.exit()?` (line 104) and `Ok(())`.
The theme only parameterizes rendering, so it is not modelled. -/
def mainRun (handler : KeyHandler) (os : TargetOs) (inp : MainInput) : MainResult :=
  match selectLoader inp.ext with
  | Except.error e =>
    { initCalled := false, loopEntered := false, stateAtLoop := Option.none,
      exitCalled := false, backendStream := mainBackend.stream,
      outcome := MainOutcome.err e }
  | Except.ok _ =>
    match inp.terminalNewFail with
    | Option.some e =>
      { initCalled := false, loopEntered := false, stateAtLoop := Option.none,
        exitCalled := false, backendStream := mainBackend.stream,
        outcome := MainOutcome.err e }
    | Option.none =>
      match inp.initFail with
      | Option.some e =>
        { initCalled := true, loopEntered := false, stateAtLoop := Option.none,
          exitCalled := false, backendStream := mainBackend.stream,
          outcome := MainOutcome.err e }
      | Option.none =>
        match mainLoop handler os (loopEntryState inp.loaded) inp.trace with
        | LoopOutcome.failed e =>
          { initCalled := true, loopEntered := true,
            stateAtLoop := Option.some (loopEntryState inp.loaded),
            exitCalled := false, backendStream := mainBackend.stream,
            outcome := MainOutcome.err e }
        | LoopOutcome.pending _ =>
          { initCalled := true, loopEntered := true,
            stateAtLoop := Option.some (loopEntryState inp.loaded),
            exitCalled := false, backendStream := mainBackend.stream,
            outcome := MainOutcome.blocked }
        | LoopOutcome.finished _ =>
          { initCalled := true, loopEntered := true,
            stateAtLoop := Option.some (loopEntryState inp.loaded),
            exitCalled := true, backendStream := mainBackend.stream,
            outcome :=
              match inp.exitFail with
              | Option.some e => MainOutcome.err e
              | Option.none => MainOutcome.ok }

/-- A key handler that leaves every component unchanged; used to instantiate
universally quantified statements at concrete inputs. -/
def noopHandler : KeyHandler :=
  fun _ t sb ctx r _ => Except.ok (t, sb, ctx, r)

/-- A key handler that fails with a recognizable message the moment it is
invoked; used to observe whether `main_loop` invokes the handler at all. -/
def probeHandler : KeyHandler :=
  fun _ _ _ _ _ _ => Except.error "invoked"

/-- A concrete app state used to instantiate universally quantified
statements. -/
def sampleState : AppState :=
  { tabular := Tabular.new { id := 7 }, statusBar := StatusBar.default,
    sqlContext := SQLContext.new.register "df" { id := 7 },
    execTbl := CommandList.defaultIntoExec, running := true }

/-- A concrete main input with a supported extension and an empty loop trace. -/
def sampleInput : MainInput :=
  { ext := Option.some "csv", loaded := { id := 1 },
    terminalNewFail := Option.none, initFail := Option.none,
    exitFail := Option.none, trace := [] }

/-- The main input of the C1 failing run: a supported extension, a clean
startup, and a draw failure in the first loop iteration. -/
def c1FailingInput : MainInput :=
  { ext := Option.some "csv", loaded := { id := 1 },
    terminalNewFail := Option.none, initFail := Option.none,
    exitFail := Option.none, trace := [IterInput.drawFail "draw failed"] }

/-! ## Helper lemmas -/

/-- A successful dispatch never changes the execution table component: the
handler only receives a shared reference to it (src/main.rs:138 and 150) and
the other arms do not mention it. -/
theorem dispatch_execTbl_eq (handler : KeyHandler) (os : TargetOs)
    (s : AppState) (ev : Event) (s2 : AppState)
    (hd : dispatch handler os s ev = Except.ok s2) : s2.execTbl = s.execTbl := by
  cases ev with
  | Tick =>
    simp only [dispatch, Except.ok.injEq] at hd
    rw [← hd]
  | Key k =>
    cases os with
    | windows =>
      simp only [dispatch] at hd
      split at hd
      · cases hh : handler k s.tabular s.statusBar s.sqlContext s.running s.execTbl with
        | error e => rw [hh] at hd; simp [Except.map] at hd
        | ok r => rw [hh] at hd; simp only [Except.map, Except.ok.injEq] at hd; rw [← hd]
      · simp only [Except.ok.injEq] at hd; rw [← hd]
    | other =>
      simp only [dispatch] at hd
      cases hh : handler k s.tabular s.statusBar s.sqlContext s.running s.execTbl with
      | error e => rw [hh] at hd; simp [Except.map] at hd
      | ok r => rw [hh] at hd; simp only [Except.map, Except.ok.injEq] at hd; rw [← hd]
  | Mouse p =>
    simp only [dispatch, Except.ok.injEq] at hd
    rw [← hd]
  | Resize w h =>
    simp only [dispatch, Except.ok.injEq] at hd
    rw [← hd]

/-- The loop never changes the execution table component of its state: by
induction over the trace, every successful dispatch preserves it. -/
theorem mainLoop_execTbl_eq (handler : KeyHandler) (os : TargetOs)
    (tr : List IterInput) :
    ∀ s s2 : AppState,
      (mainLoop handler os s tr = LoopOutcome.finished s2 ∨
        mainLoop handler os s tr = LoopOutcome.pending s2) →
      s2.execTbl = s.execTbl := by
  induction tr with
  | nil =>
    intro s s2 hml
    unfold mainLoop at hml
    by_cases hr : s.running
    · rw [if_pos hr] at hml
      rcases hml with hml | hml
      · exact absurd hml (by simp)
      · rw [(LoopOutcome.pending.injEq _ _).mp hml.symm]
    · rw [if_neg hr] at hml
      rcases hml with hml | hml
      · rw [(LoopOutcome.finished.injEq _ _).mp hml.symm]
      · exact absurd hml (by simp)
  | cons i rest ih =>
    intro s s2 hml
    unfold mainLoop at hml
    by_cases hr : s.running
    · rw [if_pos hr] at hml
      cases i with
      | drawFail e => rcases hml with hml | hml <;> simp at hml
      | eventFail e => rcases hml with hml | hml <;> simp at hml
      | event ev =>
        dsimp only at hml
        cases hd : dispatch handler os s ev with
        | error e => rw [hd] at hml; rcases hml with hml | hml <;> simp at hml
        | ok s3 =>
          rw [hd] at hml
          exact (ih s3 s2 hml).trans (dispatch_execTbl_eq handler os s ev s3 hd)
    · rw [if_neg hr] at hml
      rcases hml with hml | hml
      · rw [(LoopOutcome.finished.injEq _ _).mp hml.symm]
      · exact absurd hml (by simp)

/-- Inversion for `mainRun`: whenever the run records a state at loop entry,
that state is exactly `loopEntryState` of the loaded dataset. -/
theorem mainRun_stateAtLoop_eq (handler : KeyHandler) (os : TargetOs)
    (inp : MainInput) (s0 : AppState)
    (hs : (mainRun handler os inp).stateAtLoop = Option.some s0) :
    s0 = loopEntryState inp.loaded := by
  unfold mainRun at hs
  split at hs
  · simp at hs
  · split at hs
    · simp at hs
    · split at hs
      · simp at hs
      · split at hs <;>
          exact ((Option.some.injEq _ _).mp hs).symm

/-- A concrete main input with an unsupported extension. -/
def c4Input : MainInput :=
  { ext := Option.some "txt", loaded := { id := 0 },
    terminalNewFail := Option.none, initFail := Option.none,
    exitFail := Option.none, trace := [] }

/-- Relates loop entry to the recorded state: the run entered the loop exactly
when it recorded a state at loop entry. -/
theorem mainRun_loopEntered_eq_isSome (handler : KeyHandler) (os : TargetOs)
    (inp : MainInput) :
    (mainRun handler os inp).loopEntered =
      ((mainRun handler os inp).stateAtLoop).isSome := by
  unfold mainRun
  split
  · rfl
  · split
    · rfl
    · split
      · rfl
      · split <;> rfl

/-! ## Claims -/

/-- Claim C1: the claim states that the terminal resources acquired by
`tui.init()` are released on every exit path before the process ends.  The
code violates this: when `main_loop` propagates an error — here, a failed draw
in the first iteration — `main` returns through the `?` operators at
src/main.rs:87-101 and `tui.exit()` (line 104) never runs.  This theorem
evaluates the run at that failing input: init was called and the loop entered,
the error propagates out of the run, and exit is never called. -/
theorem c1_exit_skipped_on_loop_error :
    (mainRun noopHandler TargetOs.other c1FailingInput).initCalled = true ∧
    (mainRun noopHandler TargetOs.other c1FailingInput).exitCalled = false ∧
    (mainRun noopHandler TargetOs.other c1FailingInput).outcome =
      MainOutcome.err "draw failed" :=
  ⟨rfl, rfl, rfl⟩

/-- Claim C2 counterexample: the claim states that release key events never
reach the key handler on any platform.  On a non-windows target there is no
kind filter (src/main.rs:142-152): a `Release` key event does invoke
`handle_key_events`, observed here by a probe handler that fails the moment it
is invoked. -/
theorem c2_release_reaches_handler_off_windows :
    invokesKeyHandler TargetOs.other KeyEventKind.Release = true ∧
    dispatch probeHandler TargetOs.other sampleState
        (Event.Key { code := 0, kind := KeyEventKind.Release }) =
      Except.error "invoked" :=
  ⟨rfl, rfl⟩

/-- Claim C2 (amended): the press/repeat filter exists only in the
windows-specific branch (src/main.rs:128-141): on windows, press and repeat
kinds are handled and a release key event leaves the state untouched without
invoking the handler, while on every other target no kind filter is applied
and the handler is invoked for every key event, release included. -/
theorem c2_release_filter_is_windows_only :
    ∀ (k : KeyEventKind) (handler : KeyHandler) (s : AppState) (c : Nat),
      invokesKeyHandler TargetOs.windows KeyEventKind.Press = true ∧
      invokesKeyHandler TargetOs.windows KeyEventKind.Repeat = true ∧
      invokesKeyHandler TargetOs.windows KeyEventKind.Release = false ∧
      invokesKeyHandler TargetOs.other k = true ∧
      dispatch handler TargetOs.windows s
          (Event.Key { code := c, kind := KeyEventKind.Release }) =
        Except.ok s :=
  fun _ _ _ _ => ⟨rfl, rfl, rfl, rfl, rfl⟩

/-- Claim C3: dispatching a `Tick` event advances exactly the view state tick
and the status bar tick (src/main.rs:123-126): the tick counter increments,
and the query context, execution table and running flag are untouched. -/
theorem c3_tick_advances_view_and_status_only :
    ∀ (handler : KeyHandler) (os : TargetOs) (s : AppState),
      ∃ s2, dispatch handler os s Event.Tick = Except.ok s2 ∧
        s2.tabular = s.tabular.tick ∧
        s2.tabular.tickCount = s.tabular.tickCount + 1 ∧
        s2.statusBar = s.statusBar.tick ∧
        s2.sqlContext = s.sqlContext ∧
        s2.execTbl = s.execTbl ∧
        s2.running = s.running :=
  fun _ _ s =>
    ⟨{ s with tabular := s.tabular.tick, statusBar := s.statusBar.tick },
      rfl, rfl, rfl, rfl, rfl, rfl, rfl⟩

/-- Claim C4: an input file whose extension is none of `parquet`, `csv`,
`json` — including no extension at all — is fatal at startup
(src/main.rs:60-65): the run aborts with a message (the `unwrap()` or
`unimplemented!()` panic) and the main loop is never entered; the terminal is
not even initialized. -/
theorem c4_unsupported_extension_is_fatal_before_loop :
    ∀ (handler : KeyHandler) (os : TargetOs) (inp : MainInput),
      inp.ext ≠ Option.some "parquet" → inp.ext ≠ Option.some "csv" →
      inp.ext ≠ Option.some "json" →
      (mainRun handler os inp).loopEntered = false ∧
      (mainRun handler os inp).initCalled = false ∧
      ∃ e, (mainRun handler os inp).outcome = MainOutcome.err e := by
  intro handler os inp h1 h2 h3
  have hsel : ∃ e, selectLoader inp.ext = Except.error e := by
    cases hext : inp.ext with
    | none => exact ⟨_, rfl⟩
    | some s =>
      rw [hext] at h1 h2 h3
      refine ⟨"not implemented", ?_⟩
      unfold selectLoader
      dsimp only
      rw [if_neg (fun hq => h1 (congrArg Option.some hq)),
        if_neg (fun hq => h2 (congrArg Option.some hq)),
        if_neg (fun hq => h3 (congrArg Option.some hq))]
  obtain ⟨e, he⟩ := hsel
  unfold mainRun
  rw [he]
  exact ⟨rfl, rfl, e, rfl⟩

/-- Witness for C4 at the concrete extension `txt`. -/
theorem c4_witness :
    (mainRun noopHandler TargetOs.other c4Input).loopEntered = false ∧
    (mainRun noopHandler TargetOs.other c4Input).initCalled = false ∧
    ∃ e, (mainRun noopHandler TargetOs.other c4Input).outcome =
      MainOutcome.err e :=
  c4_unsupported_extension_is_fatal_before_loop noopHandler TargetOs.other c4Input
    (by decide) (by decide) (by decide)

/-- Claim C5: dispatching a `Mouse` or a `Resize` event is a no-op
(src/main.rs:154-155): the state — view state, status bar, query context,
execution table, running flag — is returned unchanged and no error occurs. -/
theorem c5_mouse_resize_are_noops :
    ∀ (handler : KeyHandler) (os : TargetOs) (s : AppState) (p w ht : Nat),
      dispatch handler os s (Event.Mouse p) = Except.ok s ∧
      dispatch handler os s (Event.Resize w ht) = Except.ok s :=
  fun _ _ _ _ _ _ => ⟨rfl, rfl⟩

/-- Claim C6: whenever the run reaches the loop, the state handed to it has
the loaded dataset registered under the fixed name `df` in the query bridge
(src/main.rs:68-69) and the view state initialized over that same dataset
(src/main.rs:72). -/
theorem c6_df_registered_and_view_initialized_at_loop_entry :
    ∀ (handler : KeyHandler) (os : TargetOs) (inp : MainInput) (s0 : AppState),
      (mainRun handler os inp).stateAtLoop = Option.some s0 →
      s0.sqlContext.lookup "df" = Option.some inp.loaded ∧
      s0.tabular.dataset = inp.loaded ∧
      (mainRun handler os inp).loopEntered = true := by
  intro handler os inp s0 hs
  have h0 := mainRun_stateAtLoop_eq handler os inp s0 hs
  subst h0
  refine ⟨rfl, rfl, ?_⟩
  rw [mainRun_loopEntered_eq_isSome, hs]
  rfl

/-- Witness for C6 on a concrete run (csv extension, clean startup, empty
trace). -/
theorem c6_witness :
    (loopEntryState { id := 1 }).sqlContext.lookup "df" =
      Option.some sampleInput.loaded ∧
    (loopEntryState { id := 1 }).tabular.dataset = sampleInput.loaded ∧
    (mainRun noopHandler TargetOs.other sampleInput).loopEntered = true :=
  c6_df_registered_and_view_initialized_at_loop_entry noopHandler TargetOs.other
    sampleInput (loopEntryState { id := 1 }) rfl

/-- Claim C7: if the draw of an iteration fails, the error is the outcome of
the whole loop (src/main.rs:120): no event of that iteration is fetched or
dispatched — the result does not depend on the rest of the trace or on the
handler — and the loop stops. -/
theorem c7_draw_failure_stops_loop :
    ∀ (handler : KeyHandler) (os : TargetOs) (s : AppState) (e : Error)
      (rest : List IterInput),
      s.running = true →
      mainLoop handler os s (IterInput.drawFail e :: rest) =
        LoopOutcome.failed e := by
  intro handler os s e rest hr
  unfold mainLoop
  rw [if_pos hr]

/-- Witness for C7 at a concrete running state. -/
theorem c7_witness :
    mainLoop noopHandler TargetOs.other sampleState
      [IterInput.drawFail "boom"] = LoopOutcome.failed "boom" :=
  c7_draw_failure_stops_loop noopHandler TargetOs.other sampleState "boom" [] rfl

/-- Claim C8: the execution table is built exactly once at startup — the state
at loop entry always carries `CommandList::default().into_exec()`
(src/main.rs:76) — and is never mutated during the loop: every successful
dispatch preserves it (the handler only gets a shared reference,
src/main.rs:138 and 150), and across any whole run of the loop the table is
unchanged. -/
theorem c8_exec_table_built_once_and_constant :
    ∀ (handler : KeyHandler) (os : TargetOs) (inp : MainInput),
      (∀ s0, (mainRun handler os inp).stateAtLoop = Option.some s0 →
        s0.execTbl = CommandList.defaultIntoExec) ∧
      (∀ s ev s2, dispatch handler os s ev = Except.ok s2 →
        s2.execTbl = s.execTbl) ∧
      (∀ tr s s2,
        (mainLoop handler os s tr = LoopOutcome.finished s2 ∨
          mainLoop handler os s tr = LoopOutcome.pending s2) →
        s2.execTbl = s.execTbl) := by
  intro handler os inp
  refine ⟨?_, ?_, ?_⟩
  · intro s0 hs
    rw [mainRun_stateAtLoop_eq handler os inp s0 hs]
    rfl
  · intro s ev s2 hd
    exact dispatch_execTbl_eq handler os s ev s2 hd
  · intro tr s s2 hml
    exact mainLoop_execTbl_eq handler os tr s s2 hml

/-- Witness for C8: the state at loop entry of a concrete run carries the
startup table. -/
theorem c8_witness :
    (loopEntryState { id := 1 }).execTbl = CommandList.defaultIntoExec :=
  (c8_exec_table_built_once_and_constant noopHandler TargetOs.other sampleInput).1
    (loopEntryState { id := 1 }) rfl

/-- Claim C9: only `Key` handling receives the running flag
(src/main.rs:132-151); dispatching a `Tick`, `Mouse` or `Resize` event on a
running state succeeds, leaves `running` true, and the loop proceeds to the
next iteration rather than finishing. -/
theorem c9_loop_continues_after_non_key_events :
    ∀ (handler : KeyHandler) (os : TargetOs) (s : AppState) (ev : Event)
      (rest : List IterInput),
      ev.isKey = false → s.running = true →
      ∃ s2, dispatch handler os s ev = Except.ok s2 ∧ s2.running = true ∧
        mainLoop handler os s (IterInput.event ev :: rest) =
          mainLoop handler os s2 rest := by
  intro handler os s ev rest hk hr
  obtain ⟨tab, sb, ctx, tbl, run⟩ := s
  dsimp only at hr
  subst hr
  cases ev with
  | Key k => simp [Event.isKey] at hk
  | Tick => exact ⟨_, rfl, rfl, rfl⟩
  | Mouse p => exact ⟨_, rfl, rfl, rfl⟩
  | Resize w ht => exact ⟨_, rfl, rfl, rfl⟩

/-- Witness for C9 at a concrete running state and a `Tick` event. -/
theorem c9_witness :
    ∃ s2, dispatch noopHandler TargetOs.other sampleState Event.Tick =
        Except.ok s2 ∧ s2.running = true ∧
      mainLoop noopHandler TargetOs.other sampleState
          [IterInput.event Event.Tick] =
        mainLoop noopHandler TargetOs.other s2 [] :=
  c9_loop_continues_after_non_key_events noopHandler TargetOs.other sampleState
    Event.Tick [] rfl rfl

/-- Claim C10: the rendering backend is constructed over the standard error
stream (src/main.rs:79), and every run of `main`, whatever its input and
outcome, uses that backend stream — never stdout. -/
theorem c10_backend_renders_to_stderr :
    mainBackend.stream = StdStream.stderr ∧
    ∀ (handler : KeyHandler) (os : TargetOs) (inp : MainInput),
      (mainRun handler os inp).backendStream = StdStream.stderr := by
  refine ⟨rfl, ?_⟩
  intro handler os inp
  unfold mainRun
  split
  · rfl
  · split
    · rfl
    · split
      · rfl
      · split <;> rfl

end Spec2Proof
